import Mathlib

/-!
Shallow embedding of the chat-server core of `src/server.py`: the session
registry (the global `clients` dict), the routing functions
`broadcast_message`, `send_private_message`, `send_system_message`,
`get_online_users`, `remove_client`, and the per-connection handler
`handle_client`.

Sockets are modelled by natural-number identifiers.  Network sends are
modelled by an oracle `fails : Nat → Bool` saying on which sockets
`sendall` raises, and every observable action of the server is recorded as
an `Event`.  Python dicts are modelled by insertion-ordered association
lists.  Timestamps (`datetime.now().strftime`) are an opaque string
parameter `ts`.
-/

namespace ChatTCP

/-- Registry model: the global `clients : Dict[str, socket]` of server.py
(line 37), as an insertion-ordered association list from username to
socket id. -/
abbrev Registry := List (String × Nat)

/-- Membership test `u in clients`. -/
def dictMem (u : String) (reg : Registry) : Bool :=
  reg.any (fun p => p.1 == u)

/-- Lookup `clients[u]` / `clients.get(u)`. -/
def dictGet (u : String) (reg : Registry) : Option Nat :=
  (reg.find? (fun p => p.1 == u)).map Prod.snd

/-- Assignment `clients[u] = v`: replaces the value in place when the key
exists (Python dicts keep insertion order), otherwise appends. -/
def dictInsert (u : String) (v : Nat) (reg : Registry) : Registry :=
  if dictMem u reg then reg.map (fun p => if p.1 == u then (u, v) else p)
  else reg ++ [(u, v)]

/-- Deletion `del clients[u]`, total (the source deletes only keys it just
found present, where this agrees with Python). -/
def dictRemove (u : String) (reg : Registry) : Registry :=
  reg.filter (fun p => !(p.1 == u))

/-- Usernames currently registered, in insertion order (`clients.keys()`). -/
def keys (reg : Registry) : List String :=
  reg.map Prod.fst

/-- Observable actions of the server towards client sockets: a successful
`sendall`, a `sendall` that raised, and a `close`. -/
inductive Event where
  | send (sock : Nat) (msg : String)
  | sendFail (sock : Nat) (msg : String)
  | close (sock : Nat)
deriving DecidableEq

/-- Send attempts (socket and message of each `sendall` call, successful or
raising) extracted from an event trace. -/
def attempts : List Event → List (Nat × String)
  | [] => []
  | Event.send s m :: es => (s, m) :: attempts es
  | Event.sendFail s m :: es => (s, m) :: attempts es
  | Event.close _ :: es => attempts es

/-- Lines 182-194 of server.py (`remove_client`): if the username is
registered, close its socket and delete the entry; otherwise do nothing. -/
def remove_client (u : String) (reg : Registry) : Registry × List Event :=
  match dictGet u reg with
  | some s => (dictRemove u reg, [Event.close s])
  | none => (reg, [])

/-- Message formatting of lines 92-98 of server.py. -/
def formatBroadcast (ts msg : String) (sender : Option String) : String :=
  match sender with
  | some s => "[" ++ ts ++ "] " ++ s ++ ": " ++ msg
  | none => "[" ++ ts ++ "] *** " ++ msg ++ " ***"

/-- Iteration of lines 104-114 of server.py over the snapshot
`client_items`, threading the live registry through the per-recipient
`remove_client` calls made on send failure. -/
def broadcastLoop (fails : Nat → Bool) (fmsg : String) (exclude : List String) :
    List (String × Nat) → Registry → Registry × List Event
  | [], reg => (reg, [])
  | (u, s) :: rest, reg =>
    if exclude.contains u then broadcastLoop fails fmsg exclude rest reg
    else if fails s then
      let r1 := remove_client u reg
      let r2 := broadcastLoop fails fmsg exclude rest r1.1
      (r2.1, Event.sendFail s fmsg :: (r1.2 ++ r2.2))
    else
      let r2 := broadcastLoop fails fmsg exclude rest reg
      (r2.1, Event.send s fmsg :: r2.2)

/-- Lines 82-114 of server.py (`broadcast_message`): format the line, take a
snapshot of the registry under the lock, then send to every snapshot entry
whose username is not excluded; a failing recipient is removed from the
live registry and the loop continues. -/
def broadcast_message (fails : Nat → Bool) (ts msg : String) (sender : Option String)
    (exclude : List String) (reg : Registry) : Registry × List Event :=
  broadcastLoop fails (formatBroadcast ts msg sender) exclude reg reg

/-- Line 127 of server.py: the not-found notice of a whisper. -/
def formatNotFound (ts recipient : String) : String :=
  "[" ++ ts ++ "] *** User '" ++ recipient ++ "' not found or offline ***"

/-- Line 135 of server.py: the whisper line sent to the recipient. -/
def formatWhisperFrom (ts sender msg : String) : String :=
  "[" ++ ts ++ "] [WHISPER from " ++ sender ++ "]: " ++ msg

/-- Line 144 of server.py: the confirmation line sent back to the sender. -/
def formatWhisperTo (ts recipient msg : String) : String :=
  "[" ++ ts ++ "] [WHISPER to " ++ recipient ++ "]: " ++ msg

/-- Line 157 of server.py: a `[SYSTEM]` line. -/
def formatSystem (ts msg : String) : String :=
  "[" ++ ts ++ "] [SYSTEM]: " ++ msg

/-- Lines 117-149 of server.py (`send_private_message`).  Under the lock the
source reads the recipient's socket and `clients.get(sender)`, both from
the registry as it is at the call; if the recipient is absent it sends one
not-found notice to the sender (when the sender is registered) and returns.
The two whisper sends are tried independently; a failure removes that
side's session and does not suppress the other send. -/
def send_private_message (fails : Nat → Bool) (ts sender recipient msg : String)
    (reg : Registry) : Registry × List Event :=
  match dictGet recipient reg with
  | none =>
    match dictGet sender reg with
    | some ssock =>
      if fails ssock then (reg, [Event.sendFail ssock (formatNotFound ts recipient)])
      else (reg, [Event.send ssock (formatNotFound ts recipient)])
    | none => (reg, [])
  | some rsock =>
    let ssock? := dictGet sender reg
    let r1 :=
      if fails rsock then
        let rc := remove_client recipient reg
        (rc.1, Event.sendFail rsock (formatWhisperFrom ts sender msg) :: rc.2)
      else (reg, [Event.send rsock (formatWhisperFrom ts sender msg)])
    match ssock? with
    | some ssock =>
      if fails ssock then
        let rc := remove_client sender r1.1
        (rc.1, r1.2 ++ Event.sendFail ssock (formatWhisperTo ts recipient msg) :: rc.2)
      else (r1.1, r1.2 ++ [Event.send ssock (formatWhisperTo ts recipient msg)])
    | none => (r1.1, r1.2)

/-- Lines 152-165 of server.py (`send_system_message`): send a `[SYSTEM]`
line to one registered user; on failure, remove that user. -/
def send_system_message (fails : Nat → Bool) (ts username msg : String)
    (reg : Registry) : Registry × List Event :=
  match dictGet username reg with
  | some sock =>
    if fails sock then
      let rc := remove_client username reg
      (rc.1, Event.sendFail sock (formatSystem ts msg) :: rc.2)
    else (reg, [Event.send sock (formatSystem ts msg)])
  | none => (reg, [])

/-- Comparison used by `sorted` on strings: Python compares strings
lexicographically by code points, which is Lean's order on the underlying
character lists (and, by `String.le_iff_toList_le`, the order on `String`
itself; this phrasing is the one the kernel can evaluate). -/
def pyStrLe (a b : String) : Prop :=
  a.toList ≤ b.toList

instance : DecidableRel pyStrLe := fun a b =>
  inferInstanceAs (Decidable (a.toList ≤ b.toList))

/-- Lines 168-179 of server.py (`get_online_users`): `sorted(clients.keys())`
rendered as the roster string.  Python `sorted` on strings is the
lexicographic order on code points; on the duplicate-free key list any
sorting algorithm returns the same list, here insertion sort. -/
def get_online_users (reg : Registry) : String :=
  let user_list := List.insertionSort pyStrLe (keys reg)
  if user_list.isEmpty then "No users online."
  else "Online users (" ++ toString user_list.length ++ "): " ++
    String.intercalate ", " user_list

/-- Characters Python `str.strip()` removes (ASCII whitespace). -/
def isPySpace (c : Char) : Bool :=
  c == ' ' || c == '\t' || c == '\n' || c == '\r' || c == '\x0b' || c == '\x0c'

/-- Python `str.strip()` on the character list. -/
def stripChars (cs : List Char) : List Char :=
  ((cs.dropWhile isPySpace).reverse.dropWhile isPySpace).reverse

/-- Python `str.strip()`. -/
def pyStrip (s : String) : String :=
  String.mk (stripChars s.toList)

/-- Python `str.lower()`; `Char.toLower` is ASCII lowercasing, which agrees
with Python on every command token the dispatcher compares against. -/
def pyLower (s : String) : String :=
  String.mk (s.toList.map Char.toLower)

/-- Splitting a character list at its first space character (one step of
Python `split(' ', k)`). -/
def splitFirstSpace : List Char → Option (List Char × List Char)
  | [] => none
  | c :: rest =>
    if c == ' ' then some ([], rest)
    else
      match splitFirstSpace rest with
      | none => none
      | some (a, r) => some (c :: a, r)

/-- Line 282 of server.py: `message.split(' ', 2)` — split on the literal
space character at most twice, keeping empty tokens (consecutive spaces
yield empty parts; tabs are not delimiters). -/
def splitMax2 (s : String) : List String :=
  match splitFirstSpace s.toList with
  | none => [s]
  | some (a, r1) =>
    match splitFirstSpace r1 with
    | none => [String.mk a, String.mk r1]
    | some (b, r2) => [String.mk a, String.mk b, String.mk r2]

/-- Python `message.startswith('/')` (line 281 of server.py). -/
def startsWithSlash (s : String) : Bool :=
  match s.toList with
  | [] => false
  | c :: _ => c == '/'

/-- Help text of lines 286-294 of server.py (the triple-quoted Python
string, which begins and ends with a newline). -/
def helpText : String :=
  "\nAvailable commands:\n  /help              - Show this help message\n  /users             - List online users\n  /whisper <user> <msg> - Send private message to user\n  /quit              - Disconnect from server\n\nTo send a regular message, just type and press Enter.\n"

/-- Pairs a routing result with the loop-control flag `false` (stay in the
message loop). -/
def noQuit (p : Registry × List Event) : Registry × List Event × Bool :=
  (p.1, p.2, false)

/-- Pairs a routing result with the loop-control flag `true` (the `break`
after `/quit`). -/
def quitAfter (p : Registry × List Event) : Registry × List Event × Bool :=
  (p.1, p.2, true)

/-- Command dispatch of lines 281-316 of server.py over the parts list
`message.split(' ', 2)`.  Since that list has at most 3 elements, the
source's `len(parts) < 3` check is the failure of the three-element
pattern.  The returned Boolean is the `break` of `/quit`. -/
def dispatchParts (fails : Nat → Bool) (ts username : String) (parts : List String)
    (reg : Registry) : Registry × List Event × Bool :=
  let command := pyLower (parts.headD "")
  if command = "/help" then
    noQuit (send_system_message fails ts username helpText reg)
  else if command = "/users" then
    noQuit (send_system_message fails ts username (get_online_users reg) reg)
  else if command = "/whisper" then
    match parts with
    | _ :: recipient :: private_msg :: _ =>
      if recipient = username then
        noQuit (send_system_message fails ts username
          "You can't whisper to yourself!" reg)
      else
        noQuit (send_private_message fails ts username recipient private_msg reg)
    | _ =>
      noQuit (send_system_message fails ts username
        "Usage: /whisper <username> <message>" reg)
  else if command = "/quit" then
    quitAfter (send_system_message fails ts username "Goodbye!" reg)
  else
    noQuit (send_system_message fails ts username
      ("Unknown command: " ++ command ++ ". Type /help for help.") reg)

/-- One non-blank message in the loop of lines 272-320 of server.py: a line
starting with `/` is dispatched as a command, anything else is broadcast to
everyone except the sender. -/
def processMessage (fails : Nat → Bool) (ts username message : String)
    (reg : Registry) : Registry × List Event × Bool :=
  if startsWithSlash message then
    dispatchParts fails ts username (splitMax2 message) reg
  else
    noQuit (broadcast_message fails ts message (some username) [username] reg)

/-- The receive loop of lines 263-320 of server.py.  The inbound stream is
the list of `recv` results: `none` is an empty read (peer closed, the loop
breaks), `some d` a received chunk; an exhausted list is treated as a
closed stream. -/
def messageLoop (fails : Nat → Bool) (ts username : String) :
    List (Option String) → Registry → Registry × List Event
  | [], reg => (reg, [])
  | none :: _, reg => (reg, [])
  | some d :: rest, reg =>
    let message := pyStrip d
    if message = "" then messageLoop fails ts username rest reg
    else
      let r1 := processMessage fails ts username message reg
      if r1.2.2 then (r1.1, r1.2.1)
      else
        let r2 := messageLoop fails ts username rest r1.1
        (r2.1, r1.2.1 ++ r2.2)

/-- The `finally` block, lines 329-338 of server.py.  `username` is `none`
while the local variable is still `None`; the guard `if username:` is
Python truthiness, so an assigned-but-empty name also skips the cleanup.
Note the source guards on assignment of the variable, not on completed
registration. -/
def handlerFinally (fails : Nat → Bool) (ts : String) (ownSock : Nat)
    (username : Option String) (reg : Registry) : Registry × List Event :=
  match username with
  | some u =>
    if u = "" then (reg, [Event.close ownSock])
    else
      let r1 := remove_client u reg
      let r2 := broadcast_message fails ts (u ++ " has left the chat.") none [] r1.1
      (r2.1, r1.2 ++ r2.2 ++ [Event.close ownSock])
  | none => (reg, [Event.close ownSock])

/-- Line 225 of server.py. -/
def welcomeBanner : String := "Welcome to Python Chat Server!\n"

/-- Line 226 of server.py. -/
def usernamePrompt : String := "Enter your username: "

/-- Line 239 of server.py. -/
def emptyNameReject : String := "[SYSTEM]: Username cannot be empty. Disconnecting.\n"

/-- Line 245 of server.py. -/
def takenReject (u : String) : String :=
  "[SYSTEM]: Username '" ++ u ++ "' is already taken. Disconnecting.\n"

/-- Lines 201-338 of server.py (`handle_client`), run sequentially against a
given registry: banner and prompt, username registration, the message loop,
then the `finally` cleanup.  `usernameData` is the first `recv` result
(`none` = peer closed before sending a name), `msgs` the later ones.  When
the handler's own socket fails, the very first `sendall` raises and control
reaches `finally` with the `username` variable still unassigned. -/
def handle_client (fails : Nat → Bool) (ts : String) (ownSock : Nat)
    (usernameData : Option String) (msgs : List (Option String))
    (reg : Registry) : Registry × List Event :=
  if fails ownSock then
    let rf := handlerFinally fails ts ownSock none reg
    (rf.1, Event.sendFail ownSock welcomeBanner :: rf.2)
  else
    let evsW := [Event.send ownSock welcomeBanner, Event.send ownSock usernamePrompt]
    match usernameData with
    | none => (reg, evsW ++ [Event.close ownSock, Event.close ownSock])
    | some raw =>
      let username := pyStrip raw
      if username = "" then
        (reg, evsW ++ [Event.send ownSock emptyNameReject, Event.close ownSock,
          Event.close ownSock])
      else if dictMem username reg then
        let rf := handlerFinally fails ts ownSock (some username) reg
        (rf.1, evsW ++ [Event.send ownSock (takenReject username), Event.close ownSock]
          ++ rf.2)
      else
        let reg1 := dictInsert username ownSock reg
        let r2 := broadcast_message fails ts (username ++ " has joined the chat!") none
          [username] reg1
        let r3 := send_system_message fails ts username
          ("Welcome, " ++ username ++ "! Type /help for available commands.") r2.1
        let r4 := messageLoop fails ts username msgs r3.1
        let rf := handlerFinally fails ts ownSock (some username) r4.1
        (rf.1, evsW ++ r2.2 ++ r3.2 ++ r4.2 ++ rf.2)

/-- Program counter of the registration code of one `handle_client` thread.
The duplicate check (lines 243-247 of server.py) and the insert (lines
250-251) are two separate `with clients_lock:` blocks, so each is one
atomic step; between them another thread can run. -/
inductive RegPc where
  | start
  | checked (present : Bool)
  | done (admitted : Bool)
deriving DecidableEq

/-- One atomic registration step of a thread registering `u` on socket
`sock`: the membership check first, then — only when the check saw the name
absent — the insert. -/
def regStep (u : String) (sock : Nat) (pc : RegPc) (reg : Registry) :
    RegPc × Registry :=
  match pc with
  | RegPc.start => (RegPc.checked (dictMem u reg), reg)
  | RegPc.checked true => (RegPc.done false, reg)
  | RegPc.checked false => (RegPc.done true, dictInsert u sock reg)
  | RegPc.done b => (RegPc.done b, reg)

/-- Shared state of two threads A and B racing to register the same
username. -/
structure RaceState where
  reg : Registry
  pcA : RegPc
  pcB : RegPc
deriving DecidableEq

/-- Thread identifiers of the race model. -/
inductive Tid where
  | A
  | B
deriving DecidableEq

/-- Interleaving semantics: the scheduled thread performs its next atomic
registration step. -/
def raceStep (u : String) (sockA sockB : Nat) (st : RaceState) (t : Tid) :
    RaceState :=
  match t with
  | Tid.A =>
    let r := regStep u sockA st.pcA st.reg
    { st with pcA := r.1, reg := r.2 }
  | Tid.B =>
    let r := regStep u sockB st.pcB st.reg
    { st with pcB := r.1, reg := r.2 }

/-- Run both registering threads under a schedule. -/
def runRace (u : String) (sockA sockB : Nat) (sched : List Tid)
    (st : RaceState) : RaceState :=
  sched.foldl (raceStep u sockA sockB) st

/-! Helper lemmas about the dictionary model and event traces. -/

theorem attempts_append (l1 l2 : List Event) :
    attempts (l1 ++ l2) = attempts l1 ++ attempts l2 := by
  induction l1 with
  | nil => rfl
  | cons e es ih => cases e <;> simp [attempts, ih]

theorem attempts_remove_client (u : String) (reg : Registry) :
    attempts (remove_client u reg).2 = [] := by
  cases h : dictGet u reg <;> simp [remove_client, h, attempts]

theorem dictMem_false_iff (u : String) (reg : Registry) :
    dictMem u reg = false ↔ dictGet u reg = none := by
  induction reg with
  | nil => simp [dictMem, dictGet]
  | cons p rest ih =>
    by_cases h : p.1 == u <;>
      simp [dictMem, dictGet, List.any_cons, List.find?_cons, h] at ih ⊢

theorem remove_client_absent (u : String) (reg : Registry)
    (h : dictGet u reg = none) : remove_client u reg = (reg, []) := by
  simp [remove_client, h]

theorem dictMem_dictRemove_self (u : String) (reg : Registry) :
    dictMem u (dictRemove u reg) = false := by
  simp only [dictMem, dictRemove]
  induction reg with
  | nil => rfl
  | cons p rest ih =>
    by_cases h : p.1 == u <;> simp [List.filter_cons, h, ih]

theorem dictMem_remove_client_self (u : String) (reg : Registry) :
    dictMem u (remove_client u reg).1 = false := by
  cases h : dictGet u reg with
  | none =>
    rw [remove_client_absent u reg h]
    exact (dictMem_false_iff u reg).mpr h
  | some s => simp [remove_client, h, dictMem_dictRemove_self]

theorem dictMem_filter_false (u : String) (q : String × Nat → Bool) (reg : Registry)
    (h : dictMem u reg = false) : dictMem u (reg.filter q) = false := by
  induction reg with
  | nil => rfl
  | cons p rest ih =>
    simp only [dictMem, List.any_cons, Bool.or_eq_false_iff] at h
    rw [List.filter_cons]
    by_cases hq : q p
    · simp only [hq, if_true, dictMem, List.any_cons, Bool.or_eq_false_iff]
      exact ⟨h.1, ih h.2⟩
    · simp only [hq, if_false]
      exact ih h.2

theorem dictMem_remove_client_of_false (u v : String) (reg : Registry)
    (h : dictMem u reg = false) : dictMem u (remove_client v reg).1 = false := by
  cases hg : dictGet v reg with
  | none => simpa [remove_client, hg] using h
  | some s =>
    simp only [remove_client, hg]
    exact dictMem_filter_false u _ reg h

theorem broadcastLoop_preserves_absent (fails : Nat → Bool) (fmsg : String)
    (exclude : List String) (u : String) :
    ∀ (snap : List (String × Nat)) (reg : Registry), dictMem u reg = false →
      dictMem u (broadcastLoop fails fmsg exclude snap reg).1 = false := by
  intro snap
  induction snap with
  | nil => intro reg h; simpa [broadcastLoop] using h
  | cons p rest ih =>
    intro reg h
    obtain ⟨v, s⟩ := p
    by_cases hex : v ∈ exclude
    · simpa [broadcastLoop, hex] using ih reg h
    · by_cases hf : fails s
      · simpa [broadcastLoop, hex, hf] using
          ih _ (dictMem_remove_client_of_false u v reg h)
      · simpa [broadcastLoop, hex, hf] using ih reg h

theorem broadcastLoop_removes_failed (fails : Nat → Bool) (fmsg : String)
    (exclude : List String) (u : String) (s : Nat) :
    ∀ (snap : List (String × Nat)) (reg : Registry), (u, s) ∈ snap →
      exclude.contains u = false → fails s = true →
      dictMem u (broadcastLoop fails fmsg exclude snap reg).1 = false := by
  intro snap
  induction snap with
  | nil => intro reg hmem _ _; cases hmem
  | cons p rest ih =>
    intro reg hmem hex hf
    rcases List.mem_cons.mp hmem with heq | hmem'
    · rw [← heq] at *
      have hex' : u ∉ exclude := by simpa using hex
      simpa [broadcastLoop, hex', hf] using
        broadcastLoop_preserves_absent fails fmsg exclude u rest _
          (dictMem_remove_client_self u reg)
    · obtain ⟨v, t⟩ := p
      by_cases hex2 : v ∈ exclude
      · simpa [broadcastLoop, hex2] using ih reg hmem' hex hf
      · by_cases hf2 : fails t
        · simpa [broadcastLoop, hex2, hf2] using ih _ hmem' hex hf
        · simpa [broadcastLoop, hex2, hf2] using ih reg hmem' hex hf

theorem attempts_broadcastLoop (fails : Nat → Bool) (fmsg : String)
    (exclude : List String) :
    ∀ (snap : List (String × Nat)) (reg : Registry),
      attempts (broadcastLoop fails fmsg exclude snap reg).2
        = (snap.filter (fun p => !(exclude.contains p.1))).map
            (fun p => (p.2, fmsg)) := by
  intro snap
  induction snap with
  | nil => intro reg; rfl
  | cons p rest ih =>
    intro reg
    obtain ⟨v, s⟩ := p
    by_cases hex : v ∈ exclude
    · simp [broadcastLoop, hex, List.filter_cons, ih]
    · by_cases hf : fails s
      · simp [broadcastLoop, hex, hf, List.filter_cons, attempts, attempts_append,
          attempts_remove_client, ih]
      · simp [broadcastLoop, hex, hf, List.filter_cons, attempts, ih]

theorem pyStrLe_iff (a b : String) : pyStrLe a b ↔ a ≤ b :=
  (String.le_iff_toList_le).symm

instance : IsTrans String pyStrLe :=
  ⟨fun a b c hab hbc => (pyStrLe_iff a c).mpr
    (le_trans ((pyStrLe_iff a b).mp hab) ((pyStrLe_iff b c).mp hbc))⟩

instance : IsTotal String pyStrLe :=
  ⟨fun a b => (le_total a b).imp (pyStrLe_iff a b).mpr (pyStrLe_iff b a).mpr⟩

/-! Claim theorems. -/

/-- C4: for every registry state and exclusion set, `broadcast_message`
performs a `sendall` (the formatted line) for exactly the registry entries
whose username is not excluded, in registry order, regardless of which
sends fail: excluded sessions receive nothing, every other session
registered at the time of the call is sent the formatted message. -/
theorem c4_broadcast_exclusion (fails : Nat → Bool) (ts msg : String)
    (sender : Option String) (exclude : List String) (reg : Registry) :
    attempts (broadcast_message fails ts msg sender exclude reg).2
      = (reg.filter (fun p => !(exclude.contains p.1))).map
          (fun p => (p.2, formatBroadcast ts msg sender)) :=
  attempts_broadcastLoop fails (formatBroadcast ts msg sender) exclude reg reg

/-- C8: `remove_client` is idempotent — removing a username twice returns
the registry of the single removal (with no further action), and removing
a username that is not registered returns the registry unchanged; the
function is total, so no error is raised. -/
theorem c8_remove_idempotent :
    (∀ (u : String) (reg : Registry),
       remove_client u (remove_client u reg).1
         = ((remove_client u reg).1, ([] : List Event)))
    ∧ (∀ (u : String) (reg : Registry), dictMem u reg = false →
       remove_client u reg = (reg, ([] : List Event))) := by
  constructor
  · intro u reg
    exact remove_client_absent u (remove_client u reg).1
      ((dictMem_false_iff u (remove_client u reg).1).mp
        (dictMem_remove_client_self u reg))
  · intro u reg h
    exact remove_client_absent u reg ((dictMem_false_iff u reg).mp h)

/-- C8 witness: removing the never-registered name "alice" from a registry
holding only "bob" leaves the registry unchanged. -/
theorem c8_remove_idempotent_witness :
    dictMem "alice" ([("bob", 1)] : Registry) = false
    ∧ remove_client "alice" ([("bob", 1)] : Registry) = ([("bob", 1)], []) :=
  ⟨by decide, c8_remove_idempotent.2 "alice" [("bob", 1)] (by decide)⟩

/-- C9: the roster string is "No users online." exactly when no usernames
are registered, and otherwise "Online users (N): a, b, c" where the listed
names are a permutation of the registered usernames in lexicographically
sorted order and N is their number. -/
theorem c9_roster_sorted (reg : Registry) :
    ∃ l : List String, l.Perm (keys reg) ∧ l.Sorted (· ≤ ·) ∧
      l.length = (keys reg).length ∧
      get_online_users reg =
        (if l.isEmpty then "No users online."
         else "Online users (" ++ toString l.length ++ "): " ++
           String.intercalate ", " l) := by
  refine ⟨List.insertionSort pyStrLe (keys reg), List.perm_insertionSort _ _, ?_, ?_, rfl⟩
  · exact (List.sorted_insertionSort pyStrLe (keys reg)).imp
      (fun h => (pyStrLe_iff _ _).mp h)
  · exact (List.perm_insertionSort pyStrLe (keys reg)).length_eq

/-- C5: in every routing operation a failed send to a recipient removes
that recipient from the registry and does not abort the rest of the
operation.  Conjuncts: (1) broadcast — a failing non-excluded snapshot
entry ends up deregistered, while the attempt list still covers every
non-excluded entry; (2) whisper with a failing recipient — the recipient
is deregistered and the sender still receives the confirmation line;
(3) whisper with a failing sender-confirmation — the sender is
deregistered and the recipient still received the whisper line;
(4) system notice — a failing target is deregistered. -/
theorem c5_send_failure_isolation :
    (∀ (fails : Nat → Bool) (ts msg : String) (sender : Option String)
       (exclude : List String) (reg : Registry) (u : String) (s : Nat),
       (u, s) ∈ reg → exclude.contains u = false → fails s = true →
       dictMem u (broadcast_message fails ts msg sender exclude reg).1 = false
       ∧ attempts (broadcast_message fails ts msg sender exclude reg).2
           = (reg.filter (fun p => !(exclude.contains p.1))).map
               (fun p => (p.2, formatBroadcast ts msg sender)))
    ∧ (∀ (fails : Nat → Bool) (ts sender recipient msg : String) (reg : Registry)
         (rsock ssock : Nat),
         dictGet recipient reg = some rsock → dictGet sender reg = some ssock →
         fails rsock = true → fails ssock = false →
         dictMem recipient (send_private_message fails ts sender recipient msg reg).1
           = false
         ∧ Event.send ssock (formatWhisperTo ts recipient msg)
             ∈ (send_private_message fails ts sender recipient msg reg).2)
    ∧ (∀ (fails : Nat → Bool) (ts sender recipient msg : String) (reg : Registry)
         (rsock ssock : Nat),
         dictGet recipient reg = some rsock → dictGet sender reg = some ssock →
         fails rsock = false → fails ssock = true →
         dictMem sender (send_private_message fails ts sender recipient msg reg).1
           = false
         ∧ Event.send rsock (formatWhisperFrom ts sender msg)
             ∈ (send_private_message fails ts sender recipient msg reg).2)
    ∧ (∀ (fails : Nat → Bool) (ts username msg : String) (reg : Registry) (sock : Nat),
         dictGet username reg = some sock → fails sock = true →
         dictMem username (send_system_message fails ts username msg reg).1 = false) := by
  refine ⟨?_, ?_, ?_, ?_⟩
  · intro fails ts msg sender exclude reg u s hmem hex hf
    exact ⟨broadcastLoop_removes_failed fails (formatBroadcast ts msg sender)
        exclude u s reg reg hmem hex hf,
      attempts_broadcastLoop fails (formatBroadcast ts msg sender) exclude reg reg⟩
  · intro fails ts sender recipient msg reg rsock ssock hr hs hfr hfs
    constructor
    · simp [send_private_message, hr, hs, hfr, hfs, dictMem_remove_client_self]
    · simp [send_private_message, hr, hs, hfr, hfs]
  · intro fails ts sender recipient msg reg rsock ssock hr hs hfr hfs
    constructor
    · simp [send_private_message, hr, hs, hfr, hfs, dictMem_remove_client_self]
    · simp [send_private_message, hr, hs, hfr, hfs]
  · intro fails ts username msg reg sock h hf
    simp [send_system_message, h, hf, dictMem_remove_client_self]

/-- C5 witness: a registry {alice→1, bob→2, carol→3}.  With socket 2
failing, alice's broadcast deregisters bob yet still attempts carol;
alice's whisper to bob deregisters bob yet still confirms to alice; a
system notice to bob deregisters bob.  With socket 1 failing, alice's
whisper to carol deregisters alice yet carol received the whisper line. -/
theorem c5_send_failure_isolation_witness :
    (dictMem "bob" (broadcast_message (fun s => s == 2) "12:00:00" "hi"
          (some "alice") ["alice"] [("alice", 1), ("bob", 2), ("carol", 3)]).1 = false
      ∧ attempts (broadcast_message (fun s => s == 2) "12:00:00" "hi"
          (some "alice") ["alice"] [("alice", 1), ("bob", 2), ("carol", 3)]).2
          = ([("alice", 1), ("bob", 2), ("carol", 3)].filter
              (fun p => !((["alice"] : List String).contains p.1))).map
              (fun p => (p.2, formatBroadcast "12:00:00" "hi" (some "alice"))))
    ∧ (dictMem "bob" (send_private_message (fun s => s == 2) "12:00:00" "alice"
          "bob" "psst" [("alice", 1), ("bob", 2), ("carol", 3)]).1 = false
      ∧ Event.send 1 (formatWhisperTo "12:00:00" "bob" "psst")
          ∈ (send_private_message (fun s => s == 2) "12:00:00" "alice" "bob" "psst"
              [("alice", 1), ("bob", 2), ("carol", 3)]).2)
    ∧ (dictMem "alice" (send_private_message (fun s => s == 1) "12:00:00" "alice"
          "carol" "psst" [("alice", 1), ("bob", 2), ("carol", 3)]).1 = false
      ∧ Event.send 3 (formatWhisperFrom "12:00:00" "alice" "psst")
          ∈ (send_private_message (fun s => s == 1) "12:00:00" "alice" "carol" "psst"
              [("alice", 1), ("bob", 2), ("carol", 3)]).2)
    ∧ dictMem "bob" (send_system_message (fun s => s == 2) "12:00:00" "bob" "note"
        [("alice", 1), ("bob", 2), ("carol", 3)]).1 = false :=
  ⟨c5_send_failure_isolation.1 (fun s => s == 2) "12:00:00" "hi" (some "alice")
      ["alice"] [("alice", 1), ("bob", 2), ("carol", 3)] "bob" 2
      (by decide) (by decide) (by decide),
   c5_send_failure_isolation.2.1 (fun s => s == 2) "12:00:00" "alice" "bob" "psst"
      [("alice", 1), ("bob", 2), ("carol", 3)] 2 1
      (by decide) (by decide) (by decide) (by decide),
   c5_send_failure_isolation.2.2.1 (fun s => s == 1) "12:00:00" "alice" "carol" "psst"
      [("alice", 1), ("bob", 2), ("carol", 3)] 3 1
      (by decide) (by decide) (by decide) (by decide),
   c5_send_failure_isolation.2.2.2 (fun s => s == 2) "12:00:00" "bob" "note"
      [("alice", 1), ("bob", 2), ("carol", 3)] 2 (by decide) (by decide)⟩

/-- C6: a whisper to an unregistered recipient produces exactly one send —
the not-found system notice to the sender (the attempt is made whether or
not the sender's socket then fails) — and nothing to anyone else, with the
registry unchanged; a whisper to a registered recipient (neither socket
failing) sends exactly the whisper-from line to the recipient and the
whisper-to confirmation to the sender.  Both parts assume the sender is
registered, which holds whenever the connection handler reaches its
message loop. -/
theorem c6_whisper_delivery :
    (∀ (fails : Nat → Bool) (ts sender recipient msg : String) (reg : Registry)
       (ssock : Nat),
       dictGet recipient reg = none → dictGet sender reg = some ssock →
       send_private_message fails ts sender recipient msg reg
         = (reg, [if fails ssock then Event.sendFail ssock (formatNotFound ts recipient)
                  else Event.send ssock (formatNotFound ts recipient)]))
    ∧ (∀ (fails : Nat → Bool) (ts sender recipient msg : String) (reg : Registry)
         (rsock ssock : Nat),
         dictGet recipient reg = some rsock → dictGet sender reg = some ssock →
         fails rsock = false → fails ssock = false →
         send_private_message fails ts sender recipient msg reg
           = (reg, [Event.send rsock (formatWhisperFrom ts sender msg),
                    Event.send ssock (formatWhisperTo ts recipient msg)])) := by
  constructor
  · intro fails ts sender recipient msg reg ssock hr hs
    by_cases hf : fails ssock <;> simp [send_private_message, hr, hs, hf]
  · intro fails ts sender recipient msg reg rsock ssock hr hs hfr hfs
    simp [send_private_message, hr, hs, hfr, hfs]

/-- C6 witness: in the registry {alice→1, bob→2}, alice's whisper to the
unregistered "carol" yields exactly the not-found notice on socket 1, and
alice's whisper to bob yields the whisper-from line on socket 2 and the
confirmation on socket 1. -/
theorem c6_whisper_delivery_witness :
    send_private_message (fun _ => false) "12:00:00" "alice" "carol" "hi"
        [("alice", 1), ("bob", 2)]
      = ([("alice", 1), ("bob", 2)],
         [Event.send 1 (formatNotFound "12:00:00" "carol")])
    ∧ send_private_message (fun _ => false) "12:00:00" "alice" "bob" "hi"
        [("alice", 1), ("bob", 2)]
      = ([("alice", 1), ("bob", 2)],
         [Event.send 2 (formatWhisperFrom "12:00:00" "alice" "hi"),
          Event.send 1 (formatWhisperTo "12:00:00" "bob" "hi")]) := by
  refine ⟨?_, ?_⟩
  · simpa using c6_whisper_delivery.1 (fun _ => false) "12:00:00" "alice" "carol"
      "hi" [("alice", 1), ("bob", 2)] 1 (by decide) (by decide)
  · exact c6_whisper_delivery.2 (fun _ => false) "12:00:00" "alice" "bob" "hi"
      [("alice", 1), ("bob", 2)] 2 1 (by decide) (by decide) rfl rfl

/-! Lemmas about the command dispatcher. -/

theorem splitMax2_length_le (message : String) : (splitMax2 message).length ≤ 3 := by
  simp only [splitMax2]
  cases splitFirstSpace message.toList with
  | none => simp
  | some p =>
    obtain ⟨a, r1⟩ := p
    rcases h2 : splitFirstSpace r1 with _ | ⟨b, r2⟩ <;> simp [h2]

theorem processMessage_slash (fails : Nat → Bool) (ts username message : String)
    (reg : Registry) (h : startsWithSlash message = true) :
    processMessage fails ts username message reg
      = dispatchParts fails ts username (splitMax2 message) reg := by
  simp [processMessage, h]

theorem dispatchParts_whisper_usage1 (fails : Nat → Bool) (ts username c : String)
    (reg : Registry) (hc : pyLower c = "/whisper") :
    dispatchParts fails ts username [c] reg
      = noQuit (send_system_message fails ts username
          "Usage: /whisper <username> <message>" reg) := by
  simp [dispatchParts, hc]

theorem dispatchParts_whisper_usage2 (fails : Nat → Bool) (ts username c a : String)
    (reg : Registry) (hc : pyLower c = "/whisper") :
    dispatchParts fails ts username [c, a] reg
      = noQuit (send_system_message fails ts username
          "Usage: /whisper <username> <message>" reg) := by
  simp [dispatchParts, hc]

theorem dispatchParts_whisper_self (fails : Nat → Bool) (ts username c b : String)
    (reg : Registry) (hc : pyLower c = "/whisper") :
    dispatchParts fails ts username [c, username, b] reg
      = noQuit (send_system_message fails ts username
          "You can't whisper to yourself!" reg) := by
  simp [dispatchParts, hc]

theorem dispatchParts_whisper_other (fails : Nat → Bool) (ts username c a b : String)
    (reg : Registry) (hc : pyLower c = "/whisper") (ha : a ≠ username) :
    dispatchParts fails ts username [c, a, b] reg
      = noQuit (send_private_message fails ts username a b reg) := by
  simp [dispatchParts, hc, ha]

theorem dispatchParts_pyLower_head (fails : Nat → Bool) (ts username : String)
    (reg : Registry) (c1 c2 : String) (rest : List String)
    (h : pyLower c1 = pyLower c2) :
    dispatchParts fails ts username (c1 :: rest) reg
      = dispatchParts fails ts username (c2 :: rest) reg := by
  rcases rest with _ | ⟨a, _ | ⟨b, t⟩⟩ <;>
    simp only [dispatchParts, List.headD_cons, h]

/-- C7 counterexample.  The claim reads the split policy as
whitespace-delimited tokens, under which the line "/whisper  bob hi" (two
spaces) parses as command "/whisper", recipient "bob", text "hi" — two
further tokens, so the whisper routing operation would be invoked for
"bob".  The code splits on single space characters keeping empty tokens,
parses the recipient as "" and the text as "bob hi", and (with alice and
bob registered) emits only a not-found notice to the sender: no whisper
reaches bob. -/
theorem c7_whitespace_split_counterexample :
    processMessage (fun _ => false) "12:00:00" "alice" "/whisper  bob hi"
        [("alice", 1), ("bob", 2)]
      = ([("alice", 1), ("bob", 2)],
         [Event.send 1 (formatNotFound "12:00:00" "")], false)
    ∧ processMessage (fun _ => false) "12:00:00" "alice" "/whisper  bob hi"
        [("alice", 1), ("bob", 2)]
      ≠ noQuit (send_private_message (fun _ => false) "12:00:00" "alice" "bob" "hi"
          [("alice", 1), ("bob", 2)]) := by
  constructor <;> decide

/-- C7, amended: a line beginning with "/" is split on the space character
at most twice into (command, arg1, rest-of-line) — at most three parts,
with consecutive spaces yielding empty parts and no other whitespace
treated as a delimiter.  For a /whisper line splitting into fewer than
three parts a usage-error system notice is sent; if the parsed target
(part 1 verbatim) equals the sender's username a self-whisper-rejected
notice is sent without reaching the router; otherwise the whisper routing
operation is invoked with part 1 as recipient and part 2 as text. -/
theorem c7_amended_command_parsing :
    (∀ message : String, (splitMax2 message).length ≤ 3)
    ∧ (∀ (fails : Nat → Bool) (ts username message : String) (reg : Registry),
         startsWithSlash message = true →
         processMessage fails ts username message reg
           = dispatchParts fails ts username (splitMax2 message) reg)
    ∧ (∀ (fails : Nat → Bool) (ts username c : String) (reg : Registry),
         pyLower c = "/whisper" →
         dispatchParts fails ts username [c] reg
           = noQuit (send_system_message fails ts username
               "Usage: /whisper <username> <message>" reg))
    ∧ (∀ (fails : Nat → Bool) (ts username c a : String) (reg : Registry),
         pyLower c = "/whisper" →
         dispatchParts fails ts username [c, a] reg
           = noQuit (send_system_message fails ts username
               "Usage: /whisper <username> <message>" reg))
    ∧ (∀ (fails : Nat → Bool) (ts username c b : String) (reg : Registry),
         pyLower c = "/whisper" →
         dispatchParts fails ts username [c, username, b] reg
           = noQuit (send_system_message fails ts username
               "You can't whisper to yourself!" reg))
    ∧ (∀ (fails : Nat → Bool) (ts username c a b : String) (reg : Registry),
         pyLower c = "/whisper" → a ≠ username →
         dispatchParts fails ts username [c, a, b] reg
           = noQuit (send_private_message fails ts username a b reg)) :=
  ⟨splitMax2_length_le,
   fun fails ts username message reg h =>
     processMessage_slash fails ts username message reg h,
   fun fails ts username c reg hc =>
     dispatchParts_whisper_usage1 fails ts username c reg hc,
   fun fails ts username c a reg hc =>
     dispatchParts_whisper_usage2 fails ts username c a reg hc,
   fun fails ts username c b reg hc =>
     dispatchParts_whisper_self fails ts username c b reg hc,
   fun fails ts username c a b reg hc ha =>
     dispatchParts_whisper_other fails ts username c a b reg hc ha⟩

/-- C7 witness: concrete instances of the amended dispatch facts in the
registry {alice→1, bob→2}. -/
theorem c7_amended_command_parsing_witness :
    startsWithSlash "/whisper bob" = true
    ∧ processMessage (fun _ => false) "12:00:00" "alice" "/whisper bob"
        [("alice", 1), ("bob", 2)]
      = dispatchParts (fun _ => false) "12:00:00" "alice" (splitMax2 "/whisper bob")
          [("alice", 1), ("bob", 2)]
    ∧ dispatchParts (fun _ => false) "12:00:00" "alice" ["/whisper", "bob"]
        [("alice", 1), ("bob", 2)]
      = noQuit (send_system_message (fun _ => false) "12:00:00" "alice"
          "Usage: /whisper <username> <message>" [("alice", 1), ("bob", 2)])
    ∧ dispatchParts (fun _ => false) "12:00:00" "alice" ["/whisper", "alice", "hi"]
        [("alice", 1), ("bob", 2)]
      = noQuit (send_system_message (fun _ => false) "12:00:00" "alice"
          "You can't whisper to yourself!" [("alice", 1), ("bob", 2)])
    ∧ dispatchParts (fun _ => false) "12:00:00" "alice" ["/whisper", "bob", "hi"]
        [("alice", 1), ("bob", 2)]
      = noQuit (send_private_message (fun _ => false) "12:00:00" "alice" "bob" "hi"
          [("alice", 1), ("bob", 2)]) := by
  refine ⟨rfl, ?_, ?_, ?_, ?_⟩
  · exact c7_amended_command_parsing.2.1 (fun _ => false) "12:00:00" "alice"
      "/whisper bob" [("alice", 1), ("bob", 2)] rfl
  · exact c7_amended_command_parsing.2.2.2.1 (fun _ => false) "12:00:00" "alice"
      "/whisper" "bob" [("alice", 1), ("bob", 2)] (by decide)
  · exact c7_amended_command_parsing.2.2.2.2.1 (fun _ => false) "12:00:00" "alice"
      "/whisper" "hi" [("alice", 1), ("bob", 2)] (by decide)
  · exact c7_amended_command_parsing.2.2.2.2.2 (fun _ => false) "12:00:00" "alice"
      "/whisper" "bob" "hi" [("alice", 1), ("bob", 2)] (by decide) (by decide)

/-- C10: command dispatch is case-insensitive in the command token — the
dispatcher's result is invariant under any change of the first part that
preserves its lowercasing — while the whisper recipient and message
arguments are passed to the router verbatim, not lowercased; in
particular "/QUIT" and "/Help" behave exactly like "/quit" and "/help". -/
theorem c10_case_insensitive_dispatch :
    (∀ (fails : Nat → Bool) (ts username : String) (reg : Registry)
       (c1 c2 : String) (rest : List String), pyLower c1 = pyLower c2 →
       dispatchParts fails ts username (c1 :: rest) reg
         = dispatchParts fails ts username (c2 :: rest) reg)
    ∧ (∀ (fails : Nat → Bool) (ts username c a b : String) (reg : Registry),
         pyLower c = "/whisper" → a ≠ username →
         dispatchParts fails ts username [c, a, b] reg
           = noQuit (send_private_message fails ts username a b reg))
    ∧ (∀ (fails : Nat → Bool) (ts username : String) (reg : Registry),
         processMessage fails ts username "/QUIT" reg
           = processMessage fails ts username "/quit" reg
         ∧ processMessage fails ts username "/Help" reg
           = processMessage fails ts username "/help" reg) := by
  refine ⟨?_, ?_, ?_⟩
  · intro fails ts username reg c1 c2 rest h
    exact dispatchParts_pyLower_head fails ts username reg c1 c2 rest h
  · intro fails ts username c a b reg hc ha
    exact dispatchParts_whisper_other fails ts username c a b reg hc ha
  · intro fails ts username reg
    constructor
    · rw [processMessage_slash fails ts username "/QUIT" reg rfl,
          processMessage_slash fails ts username "/quit" reg rfl]
      exact dispatchParts_pyLower_head fails ts username reg "/QUIT" "/quit" []
        (by decide)
    · rw [processMessage_slash fails ts username "/Help" reg rfl,
          processMessage_slash fails ts username "/help" reg rfl]
      exact dispatchParts_pyLower_head fails ts username reg "/Help" "/help" []
        (by decide)

/-- C10 witness: "/USERS" dispatches exactly like "/users", and the whisper
arguments "dave", "hello there" are handed to the router verbatim. -/
theorem c10_case_insensitive_dispatch_witness :
    pyLower "/USERS" = pyLower "/users"
    ∧ dispatchParts (fun _ => false) "12:00:00" "carol" ["/USERS"] [("carol", 4)]
      = dispatchParts (fun _ => false) "12:00:00" "carol" ["/users"] [("carol", 4)]
    ∧ dispatchParts (fun _ => false) "12:00:00" "carol" ["/WHISPER", "dave", "hello there"]
        [("carol", 4), ("dave", 5)]
      = noQuit (send_private_message (fun _ => false) "12:00:00" "carol" "dave"
          "hello there" [("carol", 4), ("dave", 5)]) := by
  refine ⟨by decide, ?_, ?_⟩
  · exact c10_case_insensitive_dispatch.1 (fun _ => false) "12:00:00" "carol"
      [("carol", 4)] "/USERS" "/users" [] (by decide)
  · exact c10_case_insensitive_dispatch.2.1 (fun _ => false) "12:00:00" "carol"
      "/WHISPER" "dave" "hello there" [("carol", 4), ("dave", 5)]
      (by decide) (by decide)

/-- C1: evaluation of the duplicate-username rejection path.  With registry
{alice→1, bob→3}, a new connection on socket 2 proposing the name "alice"
is rejected and its registration never completes; yet the handler's
`finally` cleanup (guarded by `if username:`, which is true for the
assigned non-empty name) removes alice's entry — an entry belonging to
another handler — closes her socket 1, and broadcasts a has-left
announcement to bob.  This contradicts the claim, under which a handler
whose registration did not complete removes nothing from the registry and
broadcasts no departure. -/
theorem c1_rejection_path_clobbers_other_session :
    handle_client (fun _ => false) "12:00:00" 2 (some "alice") []
        [("alice", 1), ("bob", 3)]
      = ([("bob", 3)],
         [Event.send 2 welcomeBanner, Event.send 2 usernamePrompt,
          Event.send 2 (takenReject "alice"), Event.close 2,
          Event.close 1,
          Event.send 3 (formatBroadcast "12:00:00" "alice has left the chat." none),
          Event.close 2]) := by
  decide

/-- C2: evaluation of a duplicate registration attempt.  With registry
{carol→5, dave→7}, a connection on socket 8 proposing "carol" is rejected
and not admitted, but the handler run does not leave the registry mapping
unchanged: carol's pre-existing entry (socket 5) is removed and her socket
closed, contradicting the claim that the existing session under the
contested name survives the failed attempt untouched. -/
theorem c2_duplicate_attempt_removes_existing :
    dictGet "carol" ([("carol", 5), ("dave", 7)] : Registry) = some 5
    ∧ (handle_client (fun _ => false) "09:00:00" 8 (some "carol") []
        [("carol", 5), ("dave", 7)]).1 = [("dave", 7)]
    ∧ Event.close 5 ∈ (handle_client (fun _ => false) "09:00:00" 8 (some "carol") []
        [("carol", 5), ("dave", 7)]).2 := by
  refine ⟨by decide, by decide, by decide⟩

/-- C3: the registration of `handle_client` is not atomic.  The duplicate
check (lines 243-247 of server.py) and the insert (lines 250-251) take the
lock separately, so under the interleaving check(A), check(B), insert(A),
insert(B) both threads registering "alice" complete as admitted and B's
socket overwrites A's registry entry — the claim that at most one
concurrent registration of a name can succeed fails on the code. -/
theorem c3_register_check_insert_not_atomic :
    (runRace "alice" 1 2 [Tid.A, Tid.B, Tid.A, Tid.B]
        { reg := [], pcA := RegPc.start, pcB := RegPc.start }).pcA = RegPc.done true
    ∧ (runRace "alice" 1 2 [Tid.A, Tid.B, Tid.A, Tid.B]
        { reg := [], pcA := RegPc.start, pcB := RegPc.start }).pcB = RegPc.done true
    ∧ (runRace "alice" 1 2 [Tid.A, Tid.B, Tid.A, Tid.B]
        { reg := [], pcA := RegPc.start, pcB := RegPc.start }).reg = [("alice", 2)] := by
  refine ⟨by decide, by decide, by decide⟩

end ChatTCP
